import Mathlib

/-
  Verification development for the opensearch-vectorindex construct
  (src/src/cdk-lib/opensearch-vectorindex/vector-index.ts) and the
  reconciliation engine it wires up (the custom-resource handler, whose
  code lives outside the excerpted sources and is modelled from the spec).
-/

namespace Aoss

/-- A serialized JSON-like value, used to model the properties object that
the construct hands to the Custom::OpenSearchIndex custom resource. -/
inductive JsonVal where
  | str : String → JsonVal
  | num : Nat → JsonVal
  | bool : Bool → JsonVal
  | arr : List JsonVal → JsonVal
  | obj : List (String × JsonVal) → JsonVal

/-- Keys of a serialized object, in order. -/
def objKeys (kvs : List (String × JsonVal)) : List String :=
  kvs.map Prod.fst

/-- Lookup of a key in a serialized object. -/
def getProp (k : String) (kvs : List (String × JsonVal)) : Option JsonVal :=
  match kvs with
  | [] => none
  | (key, v) :: rest => if key = k then some v else getProp k rest

/-- Embeds interface MetadataManagementFieldProps (vector-index.ts lines 30-43):
camelCase metadata field definition supplied by the construct user. -/
structure MetadataManagementFieldProps where
  mappingField : String
  dataType : String
  filterable : Bool
deriving DecidableEq

/-- Embeds the VectorCollection collaborator as used by the construct:
only collectionId and collectionName are read from it. -/
structure VectorCollection where
  collectionId : String
  collectionName : String
deriving DecidableEq

/-- Embeds interface VectorIndexProps (vector-index.ts lines 97-118). -/
structure VectorIndexProps where
  collection : VectorCollection
  indexName : String
  vectorField : String
  vectorDimensions : Nat
  mappings : List MetadataManagementFieldProps
deriving DecidableEq

/-- Embeds the per-mapping serialization in the CustomResource properties
(vector-index.ts lines 217-223): camelCase props renamed to the PascalCase
keys MappingField, DataType, Filterable. -/
def serializeMapping (m : MetadataManagementFieldProps) : JsonVal :=
  JsonVal.obj
    [ ("MappingField", JsonVal.str m.mappingField),
      ("DataType", JsonVal.str m.dataType),
      ("Filterable", JsonVal.bool m.filterable) ]

/-- Embeds the Endpoint template literal (vector-index.ts line 213):
the collection id, the stack region and the service domain joined by dots. -/
def collectionEndpointOf (collectionId region : String) : String :=
  collectionId ++ "." ++ region ++ ".aoss.amazonaws.com"

/-- Embeds the properties object handed to the Custom::OpenSearchIndex
custom resource (vector-index.ts lines 210-226), as the ordered key-value
list it is serialized to. -/
def vectorIndexResourceProps (p : VectorIndexProps) (region : String) :
    List (String × JsonVal) :=
  [ ("Endpoint", JsonVal.str (collectionEndpointOf p.collection.collectionId region)),
    ("IndexName", JsonVal.str p.indexName),
    ("VectorField", JsonVal.str p.vectorField),
    ("Dimensions", JsonVal.num p.vectorDimensions),
    ("MetadataManagement", JsonVal.arr (p.mappings.map serializeMapping)) ]

/-- Embeds one rule of the data access policy document
(vector-index.ts lines 183-199). -/
structure AccessPolicyRule where
  resource : List String
  permission : List String
  resourceType : String
deriving DecidableEq

/-- Embeds one statement of the data access policy document
(vector-index.ts lines 181-205). -/
structure AccessPolicyStatement where
  rules : List AccessPolicyRule
  principal : List String
  description : String
deriving DecidableEq

/-- Embeds the ManageIndexPolicy document (vector-index.ts lines 177-207):
index permissions on index/collectionName/* and collection permissions on
collection/collectionName, granted to the provider role. -/
def manageIndexPolicyDoc (collectionName roleArn : String) :
    List AccessPolicyStatement :=
  [ { rules :=
        [ { resource := ["index/" ++ collectionName ++ "/*"],
            permission :=
              [ "aoss:DescribeIndex",
                "aoss:CreateIndex",
                "aoss:DeleteIndex",
                "aoss:UpdateIndex" ],
            resourceType := "index" },
          { resource := ["collection/" ++ collectionName],
            permission := ["aoss:DescribeCollectionItems"],
            resourceType := "collection" } ],
      principal := [roleArn],
      description := "" } ]

/-- An S3 object location (bucket plus key). -/
structure S3Location where
  bucket : String
  key : String
deriving DecidableEq

/-- The bucket the CDK asset machinery stages assets into. It is managed by
the CDK bootstrap, distinct from any bucket the construct itself creates;
modelled here by a reserved name. -/
def cdkAssetBucketName : String := "cdk-managed-asset-bucket"

/-- Embeds the result of createLambdaLayer (vector-index.ts lines 236-281):
the construct creates two fresh buckets (AccessLogsLayers and DocBucket,
identified here by their construct ids), stages the layer directory as a
CDK asset (uploaded to the CDK-managed asset location), performs no other
object write, and points the LayerVersion code at key layer.zip of the
freshly created DocBucket. -/
structure LambdaLayerWiring where
  createdBuckets : List String
  assetLocation : S3Location
  s3Writes : List S3Location
  layerCodeRef : S3Location
deriving DecidableEq

/-- Embeds createLambdaLayer (vector-index.ts lines 236-281). The only
object write the wiring performs is the asset upload to the CDK-managed
asset location; the S3 buckets created by the construct start empty. -/
def createLambdaLayer (assetKey : String) : LambdaLayerWiring :=
  { createdBuckets := ["AccessLogsLayers", "DocBucket"],
    assetLocation := { bucket := cdkAssetBucketName, key := assetKey },
    s3Writes := [{ bucket := cdkAssetBucketName, key := assetKey }],
    layerCodeRef := { bucket := "DocBucket", key := "layer.zip" } }

/-- Embeds the observable outcome of the VectorIndex constructor
(vector-index.ts lines 137-233): the public readonly fields, the custom
resource properties, the access policy document, and the dependency edges
added on the custom resource node (lines 228-230). -/
structure VectorIndexConstruct where
  indexName : String
  vectorField : String
  vectorDimensions : Nat
  resourceProps : List (String × JsonVal)
  policyDoc : List AccessPolicyStatement
  dependencies : List String

/-- Embeds the VectorIndex constructor (vector-index.ts lines 137-233).
The roleArn argument stands for the custom-resource provider role arn.
The dependency list records, by construct id, the nodes the custom
resource was made to depend on. -/
def mkVectorIndex (p : VectorIndexProps) (region roleArn : String) :
    VectorIndexConstruct :=
  { indexName := p.indexName,
    vectorField := p.vectorField,
    vectorDimensions := p.vectorDimensions,
    resourceProps := vectorIndexResourceProps p region,
    policyDoc := manageIndexPolicyDoc p.collection.collectionName roleArn,
    dependencies := ["ManageIndexPolicy", "collection", "collection.dataAccessPolicy"] }

/-- Modelled from the spec: a metadata field of the desired index state
(spec section 3, IndexSpec.metadataFields). The engine code (the
custom-resource handler lambda) is not among the excerpted sources. -/
structure MetadataField where
  name : String
  dataType : String
  filterable : Bool
deriving DecidableEq

/-- Modelled from the spec: the desired index state (spec section 3,
IndexSpec). -/
structure IndexSpec where
  collectionEndpoint : String
  indexName : String
  vectorField : String
  vectorDimensions : Nat
  metadataFields : List MetadataField
deriving DecidableEq

/-- Modelled from the spec: what currently exists remotely for the index
name, or absent (spec section 3, ObservedState). -/
inductive ObservedState where
  | absent
  | present (vectorField : String) (vectorDimensions : Nat)
      (metadataFields : List MetadataField)
deriving DecidableEq

/-- Modelled from the spec: the lifecycle event kinds delivered by the
invocation transport (spec section 3, ReconcileRequest.operation). -/
inductive LifecycleOp where
  | create
  | update
  | delete
deriving DecidableEq

/-- Modelled from the spec: a remote operation in a Plan (spec section 3,
Plan: CreateIndex, AddMetadataField, DeleteIndex). -/
inductive PlanStep where
  | createIndex (spec : IndexSpec)
  | addMetadataField (field : MetadataField)
  | deleteIndex
deriving DecidableEq

/-- Modelled from the spec: the fatal planning conflict on immutable
fields (spec section 4.3 rule 2). -/
inductive ConflictError where
  | immutableFieldMismatch
deriving DecidableEq

/-- Modelled from the spec: the Convergence Planner (spec section 4.3).
Rules in order: absent plus Create/Update gives CreateIndex; present with
a vectorField or vectorDimensions mismatch gives ConflictError; otherwise
AddMetadataField for each desired field missing remotely, in declared
order; Delete gives DeleteIndex when present, else the empty plan. -/
def plan (op : LifecycleOp) (desired : IndexSpec) (observed : ObservedState) :
    Except ConflictError (List PlanStep) :=
  match op, observed with
  | .delete, .absent => .ok []
  | .delete, .present _ _ _ => .ok [.deleteIndex]
  | _, .absent => .ok [.createIndex desired]
  | _, .present vf vd fields =>
      if vf = desired.vectorField ∧ vd = desired.vectorDimensions then
        .ok ((desired.metadataFields.filter
          (fun f => decide (f ∉ fields))).map PlanStep.addMetadataField)
      else
        .error .immutableFieldMismatch

/-- Modelled from the spec: the deterministic physical identifier, a
stable string derived from collectionEndpoint and indexName only (spec
sections 3 and 6). -/
def physicalIdOf (collectionEndpoint indexName : String) : String :=
  collectionEndpoint ++ "/" ++ indexName

/-- Modelled from the spec: the remote index record held by the
collection for one index name. remoteId stands for any remote-generated
identifier, which the engine must never use for the physical id. -/
structure RemoteIndex where
  vectorField : String
  vectorDimensions : Nat
  metadataFields : List MetadataField
  remoteId : String
deriving DecidableEq

/-- Modelled from the spec: the remote collection state for one index
name; none means the index does not exist. -/
abbrev RemoteState : Type := Option RemoteIndex

/-- Modelled from the spec: the describe call result, mapping a missing
index to the absent observed state (spec section 4.1, describe). -/
def observe (r : RemoteState) : ObservedState :=
  match r with
  | none => ObservedState.absent
  | some ri => ObservedState.present ri.vectorField ri.vectorDimensions ri.metadataFields

/-- Modelled from the spec: the remote state of a collection already
converged to spec s. -/
def remoteOf (s : IndexSpec) (rid : String) : RemoteState :=
  some { vectorField := s.vectorField,
         vectorDimensions := s.vectorDimensions,
         metadataFields := s.metadataFields,
         remoteId := rid }

/-- Modelled from the spec: error classes raised by the Remote Index
Client (spec sections 4.1 and 7). -/
inductive ClientError where
  | notFound
  | alreadyExists
  | fieldExists
  | invalidSpec
  | remoteUnavailable
deriving DecidableEq

/-- Modelled from the spec: errors surfaced to the Reconciler after the
client-level idempotency policy resolved the expected classes (spec
section 7 taxonomy). -/
inductive EngineError where
  | conflict
  | invalidSpec
  | remoteUnavailable
deriving DecidableEq

/-- Modelled from the spec: which engine errors the Reconciler retries
(spec section 7: transient classes retried, fatal classes never). -/
def retryable (e : EngineError) : Bool :=
  match e with
  | .remoteUnavailable => true
  | .conflict => false
  | .invalidSpec => false

/-- Modelled from the spec: the raw remote delete call; deleting a missing
index fails with NotFound (spec section 4.1, delete). -/
def clientDelete (r : RemoteState) : Except ClientError RemoteState :=
  match r with
  | none => .error .notFound
  | some _ => .ok none

/-- Modelled from the spec: the raw remote create call; an existing index
fails with AlreadyExists, non-positive dimensions with InvalidSpec; rid is
the identifier the remote side mints for the new index (spec section 4.1,
create). -/
def clientCreate (s : IndexSpec) (rid : String) (r : RemoteState) :
    Except ClientError RemoteState :=
  match r with
  | some _ => .error .alreadyExists
  | none =>
      if s.vectorDimensions = 0 then .error .invalidSpec
      else .ok (remoteOf s rid)

/-- Modelled from the spec: the raw remote add-metadata-field call; a
missing index fails with NotFound and an already-present field with
FieldExists (spec section 4.1, addMetadataField). -/
def clientAddField (field : MetadataField) (r : RemoteState) :
    Except ClientError RemoteState :=
  match r with
  | none => .error .notFound
  | some ri =>
      if field ∈ ri.metadataFields then .error .fieldExists
      else .ok (some { ri with metadataFields := ri.metadataFields ++ [field] })

/-- Modelled from the spec: the engine-level delete, treating NotFound as
an idempotent no-op success (spec section 4.1: deleting something already
gone is success). -/
def engineDelete (r : RemoteState) : Except EngineError RemoteState :=
  match clientDelete r with
  | .ok r2 => .ok r2
  | .error .notFound => .ok none
  | .error .invalidSpec => .error .invalidSpec
  | .error _ => .error .remoteUnavailable

/-- Modelled from the spec: the engine-level create, treating
AlreadyExists as success exactly when the existing index matches the
requested spec, and as a conflict otherwise (spec section 4.1, create). -/
def engineCreate (s : IndexSpec) (rid : String) (r : RemoteState) :
    Except EngineError RemoteState :=
  match clientCreate s rid r with
  | .ok r2 => .ok r2
  | .error .alreadyExists =>
      if observe r = ObservedState.present s.vectorField s.vectorDimensions s.metadataFields
        then .ok r
        else .error .conflict
  | .error .invalidSpec => .error .invalidSpec
  | .error _ => .error .remoteUnavailable

/-- Modelled from the spec: the engine-level add-metadata-field, treating
FieldExists as an idempotent no-op (spec section 4.1). A NotFound here
means the index vanished underneath the plan; the model maps it to the
transient class. -/
def engineAddField (field : MetadataField) (r : RemoteState) :
    Except EngineError RemoteState :=
  match clientAddField field r with
  | .ok r2 => .ok r2
  | .error .fieldExists => .ok r
  | .error .invalidSpec => .error .invalidSpec
  | .error _ => .error .remoteUnavailable

/-- Modelled from the spec: executing one plan step against the remote
state (spec section 4.4, Executing). -/
def executeStep (rid : String) (step : PlanStep) (r : RemoteState) :
    Except EngineError RemoteState :=
  match step with
  | .createIndex s => engineCreate s rid r
  | .addMetadataField f => engineAddField f r
  | .deleteIndex => engineDelete r

/-- Modelled from the spec: executing the plan steps strictly in sequence,
stopping at the first failure (spec sections 4.4 and 5). -/
def executePlan (rid : String) (steps : List PlanStep) (r : RemoteState) :
    Except EngineError RemoteState :=
  match steps with
  | [] => .ok r
  | step :: rest =>
      match executeStep rid step r with
      | .error e => .error e
      | .ok r2 => executePlan rid rest r2

/-- Modelled from the spec: terminal outcome status (spec section 3,
ReconcileResult.status). -/
inductive ReconcileStatus where
  | success
  | failed
deriving DecidableEq

/-- Modelled from the spec: the terminal outcome reported to the
transport (spec section 3, ReconcileResult). -/
structure ReconcileResult where
  status : ReconcileStatus
  physicalId : String
  reason : Option String
deriving DecidableEq

/-- Modelled from the spec: the failure reason string for an engine
error class (spec section 7). -/
def reasonOf (e : EngineError) : String :=
  match e with
  | .conflict => "Conflict"
  | .invalidSpec => "InvalidSpec"
  | .remoteUnavailable => "RemoteUnavailable"

/-- Modelled from the spec: one invocation of the Lifecycle Reconciler
(spec section 4.4): describe the remote state, plan, execute the plan in
sequence, and report a terminal result whose physicalId is derived only
from collectionEndpoint and indexName. A ConflictError from planning is
terminal Failed and is not retried. rid is the identifier the remote side
would mint on a create. -/
def reconcile (op : LifecycleOp) (s : IndexSpec) (r : RemoteState)
    (rid : String) : ReconcileResult :=
  let pid := physicalIdOf s.collectionEndpoint s.indexName
  match plan op s (observe r) with
  | .error .immutableFieldMismatch =>
      { status := .failed, physicalId := pid, reason := some "Conflict" }
  | .ok steps =>
      match executePlan rid steps r with
      | .error e =>
          { status := .failed, physicalId := pid, reason := some (reasonOf e) }
      | .ok _ =>
          { status := .success, physicalId := pid, reason := none }

/-- A destructive recreate: a DeleteIndex step immediately followed by a
CreateIndex step somewhere in the plan. -/
def hasDestructiveRecreate (steps : List PlanStep) : Prop :=
  ∃ pre s rest, steps = pre ++ PlanStep.deleteIndex :: PlanStep.createIndex s :: rest

/-- Two index specs agreeing everywhere except in vectorDimensions. -/
def differOnlyInDimensions (s1 s2 : IndexSpec) : Prop :=
  s1.collectionEndpoint = s2.collectionEndpoint ∧ s1.indexName = s2.indexName ∧
  s1.vectorField = s2.vectorField ∧ s1.metadataFields = s2.metadataFields ∧
  s1.vectorDimensions ≠ s2.vectorDimensions

/-- Two index specs agreeing everywhere except in vectorField. -/
def differOnlyInVectorField (s1 s2 : IndexSpec) : Prop :=
  s1.collectionEndpoint = s2.collectionEndpoint ∧ s1.indexName = s2.indexName ∧
  s1.vectorDimensions = s2.vectorDimensions ∧ s1.metadataFields = s2.metadataFields ∧
  s1.vectorField ≠ s2.vectorField

/-- A concrete metadata field used for witnesses. -/
def fieldSource : MetadataField :=
  { name := "source", dataType := "text", filterable := true }

/-- A second concrete metadata field used for witnesses. -/
def fieldYear : MetadataField :=
  { name := "year", dataType := "number", filterable := true }

/-- A concrete index spec used for witnesses. -/
def specDocs : IndexSpec :=
  { collectionEndpoint := "abc123.us-east-1.aoss.amazonaws.com",
    indexName := "docs-v1",
    vectorField := "embedding",
    vectorDimensions := 1536,
    metadataFields := [fieldSource, fieldYear] }

/-- The witness spec with different vectorDimensions only. -/
def specDocs768 : IndexSpec :=
  { specDocs with vectorDimensions := 768 }

theorem string_append_assoc (a b c : String) : a ++ b ++ c = a ++ (b ++ c) := by
  cases a
  cases b
  cases c
  show String.mk _ = String.mk _
  rw [List.append_assoc]

/-- C1: for every VectorIndexProps, the properties object handed to the
Custom::OpenSearchIndex custom resource is serialized with exactly the
keys Endpoint, IndexName, VectorField, Dimensions, MetadataManagement, in
that capitalization, and MetadataManagement is the one-to-one, in-order
image of the input mappings under the renaming mappingField to
MappingField, dataType to DataType, filterable to Filterable, with no
other keys. -/
theorem c1_resource_props_serialization (p : VectorIndexProps) (region : String) :
    objKeys (vectorIndexResourceProps p region)
      = ["Endpoint", "IndexName", "VectorField", "Dimensions", "MetadataManagement"]
    ∧ getProp "MetadataManagement" (vectorIndexResourceProps p region)
      = some (JsonVal.arr (p.mappings.map serializeMapping))
    ∧ p.mappings.map serializeMapping
      = p.mappings.map (fun m => JsonVal.obj
          [ ("MappingField", JsonVal.str m.mappingField),
            ("DataType", JsonVal.str m.dataType),
            ("Filterable", JsonVal.bool m.filterable) ]) :=
  ⟨rfl, rfl, rfl⟩

/-- C6: the Endpoint value passed to the transport is the concatenation
of the collection id, the stack region and the service domain
aoss.amazonaws.com, joined by dots. -/
theorem c6_endpoint_concatenation (p : VectorIndexProps) (region : String) :
    getProp "Endpoint" (vectorIndexResourceProps p region)
      = some (JsonVal.str
          (p.collection.collectionId ++ "." ++ region ++ "." ++ "aoss.amazonaws.com")) := by
  have h : p.collection.collectionId ++ "." ++ region ++ "." ++ "aoss.amazonaws.com"
      = collectionEndpointOf p.collection.collectionId region := by
    rw [string_append_assoc (p.collection.collectionId ++ "." ++ region)
      "." "aoss.amazonaws.com"]
    rw [show ((".":String) ++ "aoss.amazonaws.com") = ".aoss.amazonaws.com" from rfl]
    rfl
  rw [h]
  rfl

/-- C7: the access policy created for the provider role grants exactly
aoss:DescribeIndex, aoss:CreateIndex, aoss:DeleteIndex, aoss:UpdateIndex
on index/collectionName/* and aoss:DescribeCollectionItems on
collection/collectionName, to the provider role, and the custom resource
depends on that policy. -/
theorem c7_manage_index_policy (p : VectorIndexProps) (region roleArn : String) :
    (mkVectorIndex p region roleArn).policyDoc
      = [ { rules :=
              [ { resource := ["index/" ++ p.collection.collectionName ++ "/*"],
                  permission :=
                    [ "aoss:DescribeIndex",
                      "aoss:CreateIndex",
                      "aoss:DeleteIndex",
                      "aoss:UpdateIndex" ],
                  resourceType := "index" },
                { resource := ["collection/" ++ p.collection.collectionName],
                  permission := ["aoss:DescribeCollectionItems"],
                  resourceType := "collection" } ],
            principal := [roleArn],
            description := "" } ]
    ∧ "ManageIndexPolicy" ∈ (mkVectorIndex p region roleArn).dependencies :=
  ⟨rfl, by simp [mkVectorIndex]⟩

/-- C9: the constructed VectorIndex exposes indexName, vectorField and
vectorDimensions exactly equal to the corresponding props fields; in this
embedding the construct value is immutable, matching the readonly fields
of the source class. -/
theorem c9_public_fields (p : VectorIndexProps) (region roleArn : String) :
    (mkVectorIndex p region roleArn).indexName = p.indexName
    ∧ (mkVectorIndex p region roleArn).vectorField = p.vectorField
    ∧ (mkVectorIndex p region roleArn).vectorDimensions = p.vectorDimensions :=
  ⟨rfl, rfl, rfl⟩

/-- C10: the layer code is referenced from key layer.zip of the freshly
created DocBucket, the only object write the wiring performs is the asset
upload to the CDK-managed asset location, and that location lies in a
different bucket, so the layer code reference and the uploaded asset are
disjoint and nothing ever writes the layer.zip key. -/
theorem c10_layer_reference_disjoint (assetKey : String) :
    (createLambdaLayer assetKey).layerCodeRef
      = { bucket := "DocBucket", key := "layer.zip" }
    ∧ "DocBucket" ∈ (createLambdaLayer assetKey).createdBuckets
    ∧ (createLambdaLayer assetKey).s3Writes
      = [(createLambdaLayer assetKey).assetLocation]
    ∧ (createLambdaLayer assetKey).assetLocation.bucket = cdkAssetBucketName
    ∧ cdkAssetBucketName ≠ (createLambdaLayer assetKey).layerCodeRef.bucket := by
  refine ⟨rfl, ?_, rfl, rfl, ?_⟩
  · simp [createLambdaLayer]
  · show cdkAssetBucketName ≠ "DocBucket"
    decide

theorem hasDestructiveRecreate_length {steps : List PlanStep}
    (h : hasDestructiveRecreate steps) : 2 ≤ steps.length := by
  obtain ⟨pre, s, rest, rfl⟩ := h
  simp [List.length_append]
  omega

theorem hasDestructiveRecreate_mem {steps : List PlanStep}
    (h : hasDestructiveRecreate steps) : PlanStep.deleteIndex ∈ steps := by
  obtain ⟨pre, s, rest, rfl⟩ := h
  simp

theorem plan_never_recreates (op : LifecycleOp) (d : IndexSpec) (o : ObservedState)
    (steps : List PlanStep) (h : plan op d o = Except.ok steps) :
    ¬ hasDestructiveRecreate steps := by
  intro hrec
  cases o with
  | absent =>
    cases op with
    | delete =>
      simp [plan] at h
      subst h
      exact absurd (hasDestructiveRecreate_length hrec) (by simp)
    | create =>
      simp [plan] at h
      subst h
      exact absurd (hasDestructiveRecreate_length hrec) (by simp)
    | update =>
      simp [plan] at h
      subst h
      exact absurd (hasDestructiveRecreate_length hrec) (by simp)
  | present vf vd fields =>
    cases op with
    | delete =>
      simp [plan] at h
      subst h
      exact absurd (hasDestructiveRecreate_length hrec) (by simp)
    | create =>
      simp only [plan] at h
      split at h
      · cases h
        have := hasDestructiveRecreate_mem hrec
        simp [List.mem_map] at this
      · cases h
    | update =>
      simp only [plan] at h
      split at h
      · cases h
        have := hasDestructiveRecreate_mem hrec
        simp [List.mem_map] at this
      · cases h

theorem reconcile_physicalId (op : LifecycleOp) (s : IndexSpec) (r : RemoteState)
    (rid : String) :
    (reconcile op s r rid).physicalId = physicalIdOf s.collectionEndpoint s.indexName := by
  unfold reconcile
  split
  · rfl
  · split
    · rfl
    · rfl

/-- C2: re-running a Create reconciliation against a remote state already
converged to the same spec yields the empty plan and a Success result,
and executing that empty plan leaves the remote state unchanged, so the
re-delivery causes no further side effects. -/
theorem c2_idempotent_create (s : IndexSpec) (rid newRid : String) :
    plan .create s (observe (remoteOf s rid)) = Except.ok []
    ∧ (reconcile .create s (remoteOf s rid) newRid).status = ReconcileStatus.success
    ∧ executePlan newRid [] (remoteOf s rid) = Except.ok (remoteOf s rid) := by
  have hplan : plan .create s (observe (remoteOf s rid)) = Except.ok [] := by
    simp [plan, observe, remoteOf, List.filter_eq_nil_iff]
  refine ⟨hplan, ?_, rfl⟩
  simp [reconcile, hplan, executePlan]

/-- C3: for specs differing only in vectorDimensions or only in
vectorField, planning an Update from the observed state of the first
toward the second yields the immutable-field ConflictError, no plan ever
contains a DeleteIndex-then-CreateIndex sequence, the reconciler reports
a terminal Failed result with the conflict reason, and the conflict class
is not retryable. -/
theorem c3_immutable_conflict (s1 s2 : IndexSpec) (rid rid2 : String)
    (h : differOnlyInDimensions s1 s2 ∨ differOnlyInVectorField s1 s2) :
    plan .update s2 (observe (remoteOf s1 rid))
      = Except.error ConflictError.immutableFieldMismatch
    ∧ (∀ op d o steps, plan op d o = Except.ok steps → ¬ hasDestructiveRecreate steps)
    ∧ reconcile .update s2 (remoteOf s1 rid) rid2
      = { status := ReconcileStatus.failed,
          physicalId := physicalIdOf s2.collectionEndpoint s2.indexName,
          reason := some "Conflict" }
    ∧ retryable EngineError.conflict = false := by
  have hcond : ¬ (s1.vectorField = s2.vectorField
      ∧ s1.vectorDimensions = s2.vectorDimensions) := by
    rcases h with ⟨_, _, hvf, _, hvd⟩ | ⟨_, _, hvd, _, hvf⟩
    · exact fun hc => hvd hc.2
    · exact fun hc => hvf hc.1
  have hplan : plan .update s2 (observe (remoteOf s1 rid))
      = Except.error ConflictError.immutableFieldMismatch := by
    simp [plan, observe, remoteOf, hcond]
  refine ⟨hplan, plan_never_recreates, ?_, rfl⟩
  simp [reconcile, hplan]

/-- C3 witness at a concrete input: two specs differing only in
vectorDimensions. -/
theorem c3_immutable_conflict_witness :
    plan .update specDocs768 (observe (remoteOf specDocs "rid-1"))
      = Except.error ConflictError.immutableFieldMismatch
    ∧ (∀ op d o steps, plan op d o = Except.ok steps → ¬ hasDestructiveRecreate steps)
    ∧ reconcile .update specDocs768 (remoteOf specDocs "rid-1") "rid-2"
      = { status := ReconcileStatus.failed,
          physicalId := physicalIdOf specDocs768.collectionEndpoint specDocs768.indexName,
          reason := some "Conflict" }
    ∧ retryable EngineError.conflict = false :=
  c3_immutable_conflict specDocs specDocs768 "rid-1" "rid-2"
    (Or.inl ⟨rfl, rfl, rfl, rfl, by decide⟩)

/-- C4: when the observed state matches on the immutable fields and holds
a subset of the desired metadata fields, the plan is exactly the
AddMetadataField steps for the desired fields missing remotely, in the
declared order (a sublist of the declared list), and every planned step
is an addition of a desired-but-missing field, never a removal. -/
theorem c4_missing_fields_plan (s : IndexSpec) (observedFields : List MetadataField)
    (_hsub : observedFields ⊆ s.metadataFields) :
    plan .update s (ObservedState.present s.vectorField s.vectorDimensions observedFields)
      = Except.ok ((s.metadataFields.filter
          (fun f => decide (f ∉ observedFields))).map PlanStep.addMetadataField)
    ∧ (s.metadataFields.filter
        (fun f => decide (f ∉ observedFields))).Sublist s.metadataFields
    ∧ ∀ st ∈ (s.metadataFields.filter
          (fun f => decide (f ∉ observedFields))).map PlanStep.addMetadataField,
        ∃ f, st = PlanStep.addMetadataField f
          ∧ f ∈ s.metadataFields ∧ f ∉ observedFields := by
  refine ⟨by simp [plan], List.filter_sublist _, ?_⟩
  intro st hst
  simp only [List.mem_map, List.mem_filter, decide_eq_true_eq] at hst
  obtain ⟨f, ⟨hfM, hfno⟩, rfl⟩ := hst
  exact ⟨f, rfl, hfM, hfno⟩

/-- C4 witness at a concrete input: one of two declared fields already
observed remotely, so the plan adds exactly the other one. -/
theorem c4_missing_fields_plan_witness :
    plan .update specDocs
      (ObservedState.present specDocs.vectorField specDocs.vectorDimensions [fieldSource])
      = Except.ok ((specDocs.metadataFields.filter
          (fun f => decide (f ∉ [fieldSource]))).map PlanStep.addMetadataField)
    ∧ (specDocs.metadataFields.filter
        (fun f => decide (f ∉ [fieldSource]))).Sublist specDocs.metadataFields
    ∧ ∀ st ∈ (specDocs.metadataFields.filter
          (fun f => decide (f ∉ [fieldSource]))).map PlanStep.addMetadataField,
        ∃ f, st = PlanStep.addMetadataField f
          ∧ f ∈ specDocs.metadataFields ∧ f ∉ [fieldSource] :=
  c4_missing_fields_plan specDocs [fieldSource] (by decide)

/-- C5: a Delete reconciliation against an absent remote state yields the
empty plan and Success; the raw remote delete call raises NotFound there,
and the engine-level delete resolves it to success rather than surfacing
it as a failure. -/
theorem c5_delete_absent (s : IndexSpec) (rid : String) :
    plan .delete s (observe (none : RemoteState)) = Except.ok []
    ∧ (reconcile .delete s (none : RemoteState) rid).status = ReconcileStatus.success
    ∧ clientDelete (none : RemoteState) = Except.error ClientError.notFound
    ∧ engineDelete (none : RemoteState) = Except.ok (none : RemoteState) := by
  refine ⟨rfl, ?_, rfl, rfl⟩
  simp [reconcile, plan, observe, executePlan]

/-- C8: the physicalId of every reconciliation result is the
deterministic function physicalIdOf of collectionEndpoint and indexName
only; any two runs with the same endpoint and index name produce the same
physicalId, whatever the operation, the remote state or the
remote-minted identifier. -/
theorem c8_physical_id_deterministic (op1 op2 : LifecycleOp) (s1 s2 : IndexSpec)
    (r1 r2 : RemoteState) (rid1 rid2 : String)
    (hend : s1.collectionEndpoint = s2.collectionEndpoint)
    (hname : s1.indexName = s2.indexName) :
    (reconcile op1 s1 r1 rid1).physicalId = physicalIdOf s1.collectionEndpoint s1.indexName
    ∧ (reconcile op1 s1 r1 rid1).physicalId = (reconcile op2 s2 r2 rid2).physicalId := by
  have h1 := reconcile_physicalId op1 s1 r1 rid1
  have h2 := reconcile_physicalId op2 s2 r2 rid2
  refine ⟨h1, ?_⟩
  rw [h1, h2, hend, hname]

/-- C8 witness at a concrete input: a Create against an absent remote and
a Delete against a converged remote, with different remote-minted ids,
report the same physicalId. -/
theorem c8_physical_id_deterministic_witness :
    (reconcile .create specDocs (none : RemoteState) "rid-a").physicalId
      = physicalIdOf specDocs.collectionEndpoint specDocs.indexName
    ∧ (reconcile .create specDocs (none : RemoteState) "rid-a").physicalId
      = (reconcile .delete specDocs (remoteOf specDocs "rid-b") "rid-c").physicalId :=
  c8_physical_id_deterministic .create .delete specDocs specDocs
    (none : RemoteState) (remoteOf specDocs "rid-b") "rid-a" "rid-c" rfl rfl

end Aoss
